import Mathlib

/-! # go-sshlib: credential construction (`auth.go`, `auth_pkcs11.go`, `pkcs11.go`)

A shallow embedding of the passphrase-retry key unlock
(`CreateSignerPublicKeyPrompt`), of the PKCS#11 signer aggregation
(`CreateSignerPKCS11`, `CreateAuthMethodPKCS11`) and of the single-token helpers
of `pkcs11.go` (`PKCS11.GetTokenLabel`, `PKCS11.GetKeyID`).

Conventions of the embedding.

* External collaborators (the file system, the terminal, the `ssh` parsing
  functions, the PKCS#11 driver) are parameters.  A collaborator that performs
  I/O is a state-passing function `σ → result × σ` over an arbitrary world `σ`;
  the embedding additionally records every such call in a log.
* A Go result pair `(v, err)` of a library function is an `Except GoError α`
  (the library returns the zero value next to a non-nil error); the named
  results of the embedded functions are kept as separate fields, `none` being
  Go's `nil`.
* A run-time panic of the Go program is the result `none` of an `Option`.
-/

namespace Sshlib

/-! ## Go values -/

/-- A Go `error` value, identified by the text its `Error()` method returns. -/
structure GoError where
  msg : String
  deriving DecidableEq, Repr

/-- A Go `[]byte`. -/
abbrev Bytes := List UInt8

/-- Go's `regexp.MustCompile(pat).MatchString(s)` for a pattern `pat` made of literal
characters only: some suffix of `s` starts with `pat`. -/
def MatchString (pat s : String) : Bool :=
  s.data.tails.any (fun t => pat.data.isPrefixOf t)

/-- Go's `strings.TrimRight(s, cutset)`: drop every trailing character that occurs
in `cutset`. -/
def TrimRight (s cutset : String) : String :=
  ⟨(s.data.reverse.dropWhile (fun c => cutset.data.contains c)).reverse⟩

/-- The two results `(v, err)` of a Go library call, `nil` being `none`. -/
def goPair {α : Type} : Except GoError α → Option α × Option GoError
  | .ok v => (some v, none)
  | .error e => (none, some e)

/-! ## `auth.go`: passphrase-retry unlock -/

/-- The collaborators of `CreateSignerPublicKeyPrompt`. -/
structure KeyEnv (Signer σ : Type) where
  /-- The helper `getAbsPath` (path normalisation). -/
  getAbsPath : String → String
  /-- The call `ioutil.ReadFile`. -/
  ReadFile : String → σ → Except GoError Bytes × σ
  /-- The call `ssh.ParsePrivateKey`. -/
  ParsePrivateKey : Bytes → Except GoError Signer
  /-- The call `ssh.ParsePrivateKeyWithPassphrase`; the passphrase is the byte content
  of the Go string. -/
  ParsePrivateKeyWithPassphrase : Bytes → String → Except GoError Signer
  /-- The interactive prompt `getPassphrase(msg)`: one line read without echo. -/
  getPassphrase : String → σ → (String × Option GoError) × σ

/-- What `CreateSignerPublicKeyPrompt` does on the terminal. -/
inductive TermEvent where
  | prompt (msg : String)
  | println (line : String)
  deriving DecidableEq, Repr

/-- Whether a terminal event is an invocation of `getPassphrase`. -/
def TermEvent.isPrompt : TermEvent → Bool
  | .prompt _ => true
  | .println _ => false

/-- The named results `(signer, err)` of a signer constructor, with the world it leaves
and the terminal events it caused, oldest first. -/
structure SignerResult (Signer σ : Type) where
  signer : Option Signer
  err : Option GoError
  st : σ
  log : List TermEvent

/-- Number of invocations of the prompt collaborator in a run. -/
def SignerResult.prompts {Signer σ : Type} (r : SignerResult Signer σ) : Nat :=
  r.log.countP TermEvent.isPrompt

variable {Signer σ : Type}

/-- The loop `for i := 0; i < rep; i++ { ... }` of `CreateSignerPublicKeyPrompt`
(auth.go 97-105); the first argument is the number `rep - i` of iterations left, the
body does not read `i`. -/
def promptLoop (env : KeyEnv Signer σ) (keyData : Bytes) (msg : String) :
    Nat → Option Signer → Option GoError → σ → List TermEvent → SignerResult Signer σ
  | 0, signer, err, s, log => ⟨signer, err, s, log⟩
  | n + 1, _, _, s, log =>
    let r := env.getPassphrase msg s
    let password := TrimRight r.1.1 "\n"
    match env.ParsePrivateKeyWithPassphrase keyData password with
    | .ok sg => ⟨some sg, none, r.2, log ++ [.prompt msg]⟩
    | .error e =>
      promptLoop env keyData msg n none (some e) r.2
        (log ++ [.prompt msg, .println ("\n" ++ e.msg)])

/-- The function `CreateSignerPublicKeyPrompt(key, password)` of auth.go 74-111. -/
def CreateSignerPublicKeyPrompt (env : KeyEnv Signer σ) (key password : String) (s : σ) :
    SignerResult Signer σ :=
  let rep := 3
  let key := env.getAbsPath key
  match env.ReadFile key s with
  | (.error e, s1) => ⟨none, some e, s1, []⟩
  | (.ok keyData, s1) =>
    if password ≠ "" then
      let r := goPair (env.ParsePrivateKeyWithPassphrase keyData password)
      ⟨r.1, r.2, s1, []⟩
    else
      match env.ParsePrivateKey keyData with
      | .ok sg => ⟨some sg, none, s1, []⟩
      | .error e =>
        if MatchString "cannot decode" e.msg then
          promptLoop env keyData (key ++ "'s passphrase:") rep none (some e) s1 []
        else
          ⟨none, some e, s1, []⟩

/-- The world in which the `i`-th prompt (counting from 0) is answered, when
`getPassphrase msg` is called repeatedly starting in `s`. -/
def promptState (env : KeyEnv Signer σ) (msg : String) : Nat → σ → σ
  | 0, s => s
  | i + 1, s => promptState env msg i (env.getPassphrase msg s).2

/-- The passphrase tried at prompt `i` (counting from 0): the line entered there with
its trailing newlines stripped. -/
def entered (env : KeyEnv Signer σ) (msg : String) (s : σ) (i : Nat) : String :=
  TrimRight (env.getPassphrase msg (promptState env msg i s)).1.1 "\n"

/-! ### A scripted terminal, for concrete runs -/

/-- A concrete environment: the key file holds `[1]`, is not parseable without a
passphrase (error text `perr`), decrypts exactly with the passphrase `good`, and the
user types the lines `typed` one after the other (then empty lines). -/
def scriptedEnv (perr good : String) (typed : List String) : KeyEnv Nat Nat where
  getAbsPath := fun p => "/home/u/" ++ p
  ReadFile := fun p s => (if p = "/home/u/id_rsa" then .ok [1] else .error ⟨"no such file"⟩, s)
  ParsePrivateKey := fun _ => .error ⟨perr⟩
  ParsePrivateKeyWithPassphrase := fun _ pw =>
    if pw = good then .ok 7 else .error ⟨"bad passphrase " ++ pw⟩
  getPassphrase := fun _ s => ((typed.getD s "", none), s + 1)

/-! ## `auth.go` / `auth_pkcs11.go`: signer aggregation over PKCS#11 tokens

The two files hold the same text of `CreateSignerPKCS11` and `CreateAuthMethodPKCS11`
(`auth_pkcs11.go` is the `cgo` build); one embedding serves both. -/

/-- The value `pkcs11.TokenInfo` returned by a token-info read; the code reads its
label only. -/
structure TokenInfo where
  Label : String
  deriving DecidableEq, Repr

/-- Modelled from the spec: the struct `C11`, whose declaration is not among the source
files.  It is the spec's Session: the token label and the PIN that the composite
literal `&C11{Label: ..., PIN: pin}` sets, and the one driver context it owns, absent
until `CreateCtx` stores it. -/
structure C11 (Cx : Type) where
  Label : String
  PIN : String
  ctx : Option Cx

/-- The collaborators of `CreateSignerPKCS11`: the `p11` module API, the methods
`CreateCtx` and `GetSigner` of `C11` (declared outside the source files at hand) and
`ssh.NewSignerFromSigner`.  `CreateCtx` has a pointer receiver: it returns the updated
struct next to its error.  `GetSigner` returns `(sigs, err)`, of which the caller reads
`sigs` only when `err` is nil. -/
structure P11Driver (Module Slot Cx CSigner Signer σ : Type) where
  getAbsPath : String → String
  OpenModule : String → σ → Except GoError Module × σ
  Slots : Module → σ → Except GoError (List Slot) × σ
  TokenInfo : Slot → σ → Except GoError TokenInfo × σ
  Destroy : Module → σ → σ
  CreateCtx : C11 Cx → String → σ → (C11 Cx × Option GoError) × σ
  GetSigner : C11 Cx → σ → Except GoError (List CSigner) × σ
  NewSignerFromSigner : CSigner → Except GoError Signer

/-- The driver calls of `CreateSignerPKCS11`, as recorded in the call log. -/
inductive P11Call (Slot : Type) where
  | OpenModule (provider : String)
  | Slots
  | TokenInfo (slot : Slot)
  | Destroy
  | CreateCtx (label provider : String)
  | GetSigner (label : String)
  deriving DecidableEq, Repr

/-- The named results `(signers, err)` of `CreateSignerPKCS11`, the world it leaves and
its driver calls, oldest first.  An element `none` of `signers` is a nil `ssh.Signer`. -/
structure SignersResult (Signer Slot σ : Type) where
  signers : List (Option Signer)
  err : Option GoError
  st : σ
  calls : List (P11Call Slot)

/-- The value `ssh.AuthMethod` built by `ssh.PublicKeys(signers...)`. -/
inductive AuthMethod (Signer : Type) where
  | PublicKeys (signers : List (Option Signer))
  deriving DecidableEq, Repr

/-- The named results `(auth, err)` of `CreateAuthMethodPKCS11`. -/
structure AuthResult (Signer Slot σ : Type) where
  auth : List (AuthMethod Signer)
  err : Option GoError
  st : σ
  calls : List (P11Call Slot)

section Aggregation

variable {Module Slot Cx CSigner : Type}

/-- The loop `for _, slot := range slots` (auth.go 198-209): a slot whose token-info
read fails is skipped, the others append a fresh `C11` to `c11array`.  The `err` it
declares is local to the loop body. -/
def tokenLoop (d : P11Driver Module Slot Cx CSigner Signer σ) (pin : String) :
    List Slot → List (C11 Cx) → σ → List (P11Call Slot) →
      List (C11 Cx) × σ × List (P11Call Slot)
  | [], c11array, s, log => (c11array, s, log)
  | slot :: rest, c11array, s, log =>
    let r := d.TokenInfo slot s
    match r.1 with
    | .error _ => tokenLoop d pin rest c11array r.2 (log ++ [.TokenInfo slot])
    | .ok tokenInfo =>
      let c : C11 Cx := { Label := tokenInfo.Label, PIN := pin, ctx := none }
      tokenLoop d pin rest (c11array ++ [c]) r.2 (log ++ [.TokenInfo slot])

/-- The loop `for _, sig := range sigs` (auth.go 226-229): the error of
`ssh.NewSignerFromSigner` is discarded and its first result is appended as it is. -/
def adaptLoop (d : P11Driver Module Slot Cx CSigner Signer σ) :
    List CSigner → List (Option Signer) → List (Option Signer)
  | [], signers => signers
  | sig :: rest, signers =>
    let signer := (goPair (d.NewSignerFromSigner sig)).1
    adaptLoop d rest (signers ++ [signer])

/-- The loop `for _, c11 := range c11array` (auth.go 215-230).  The `err` it declares
is local to the loop body. -/
def signerLoop (d : P11Driver Module Slot Cx CSigner Signer σ) (provider : String) :
    List (C11 Cx) → List (Option Signer) → σ → List (P11Call Slot) →
      List (Option Signer) × σ × List (P11Call Slot)
  | [], signers, s, log => (signers, s, log)
  | c11 :: rest, signers, s, log =>
    let r := d.CreateCtx c11 provider s
    match r.1.2 with
    | some _ => signerLoop d provider rest signers r.2 (log ++ [.CreateCtx c11.Label provider])
    | none =>
      let r1 := d.GetSigner r.1.1 r.2
      match r1.1 with
      | .error _ =>
        signerLoop d provider rest signers r1.2
          (log ++ [.CreateCtx c11.Label provider, .GetSigner c11.Label])
      | .ok sigs =>
        signerLoop d provider rest (adaptLoop d sigs signers) r1.2
          (log ++ [.CreateCtx c11.Label provider, .GetSigner c11.Label])

/-- The function `CreateSignerPKCS11(provider, pin)` of auth.go 181-233 (and
auth_pkcs11.go 36-88). -/
def CreateSignerPKCS11 (d : P11Driver Module Slot Cx CSigner Signer σ) (provider pin : String)
    (s : σ) : SignersResult Signer Slot σ :=
  let provider := d.getAbsPath provider
  let r := d.OpenModule provider s
  match r.1 with
  | .error e => ⟨[], some e, r.2, [.OpenModule provider]⟩
  | .ok modl =>
    let r1 := d.Slots modl r.2
    match r1.1 with
    | .error e => ⟨[], some e, r1.2, [.OpenModule provider, .Slots]⟩
    | .ok slots =>
      -- the named result `err` after `slots, err := module.Slots()`
      let err : Option GoError := none
      let t := tokenLoop d pin slots [] r1.2 [.OpenModule provider, .Slots]
      let s2 := d.Destroy modl t.2.1
      let l := signerLoop d provider t.1 [] s2 (t.2.2 ++ [.Destroy])
      ⟨l.1, err, l.2.1, l.2.2⟩

/-- The function `CreateAuthMethodPKCS11(provider, pin)` of auth.go 165-175 (and
auth_pkcs11.go 19-29). -/
def CreateAuthMethodPKCS11 (d : P11Driver Module Slot Cx CSigner Signer σ)
    (provider pin : String) (s : σ) : AuthResult Signer Slot σ :=
  let r := CreateSignerPKCS11 d provider pin s
  match r.err with
  | some e => ⟨[], some e, r.st, r.calls⟩
  | none => ⟨r.signers.map (fun signer => AuthMethod.PublicKeys [signer]), none, r.st, r.calls⟩

/-- The signers found through one session, in their discovery order, when the creation
of its authenticated context and its signer discovery both succeed; `none` when one of
the two fails.  The outcomes are given per session by `cc` and `gs`. -/
def sessionSigners (cc : C11 Cx → C11 Cx × Option GoError)
    (gs : C11 Cx → Except GoError (List CSigner)) (c : C11 Cx) : Option (List CSigner) :=
  match (cc c).2 with
  | some _ => none
  | none =>
    match gs (cc c).1 with
    | .error _ => none
    | .ok sigs => some sigs

/-- The signers that the token of one slot holds, in their discovery order, when its
token-info read, the creation of its authenticated context and its signer discovery
all succeed; `none` when one of the three fails.  The outcome of the token-info read is
given per slot by `ti`. -/
def tokenSigners (ti : Slot → Except GoError TokenInfo)
    (cc : C11 Cx → C11 Cx × Option GoError) (gs : C11 Cx → Except GoError (List CSigner))
    (pin : String) (slot : Slot) : Option (List CSigner) :=
  match ti slot with
  | .error _ => none
  | .ok info => sessionSigners cc gs ⟨info.Label, pin, none⟩

end Aggregation

/-- A concrete provider `/lib/softhsm.so`.  `slotsR` is the outcome of the slot listing,
`label` the label of the token in a slot (`none`: the token-info read fails), `keys` the
key handles found on a token (`none`: signer discovery fails), and a session for the
token labelled `locked` cannot be opened.  A key handle is adapted into the signer
`100 + handle` unless `bad` holds of it.  The world counts the driver calls. -/
def scriptedDriver (slotsR : Except GoError (List Nat)) (label : Nat → Option String)
    (keys : String → Option (List Nat)) (bad : Nat → Bool) :
    P11Driver Unit Nat Unit Nat Nat Nat where
  getAbsPath := fun p => p
  OpenModule := fun p s =>
    (if p = "/lib/softhsm.so" then .ok () else .error ⟨"module not found"⟩, s + 1)
  Slots := fun _ s => (slotsR, s + 1)
  TokenInfo := fun slot s =>
    (match label slot with
      | some l => .ok ⟨l⟩
      | none => .error ⟨"CKR_TOKEN_NOT_PRESENT"⟩, s + 1)
  Destroy := fun _ s => s + 1
  CreateCtx := fun c _ s =>
    (if c.Label = "locked" then (c, some ⟨"CKR_PIN_INCORRECT"⟩)
      else ({ c with ctx := some () }, none), s + 1)
  GetSigner := fun c s =>
    (match keys c.Label with
      | some ks => .ok ks
      | none => .error ⟨"CKR_DEVICE_ERROR"⟩, s + 1)
  NewSignerFromSigner := fun k =>
    if bad k then .error ⟨"ssh: unsupported key type"⟩ else .ok (100 + k)

/-- Token labels of the concrete runs: slot 0 holds `demo`, slot 2 holds `locked`,
slot 3 holds `broken`, slot 4 holds `spare`; slot 1 and the others are empty. -/
def demoLabel : Nat → Option String
  | 0 => some "demo"
  | 2 => some "locked"
  | 3 => some "broken"
  | 4 => some "spare"
  | _ => none

/-- Key handles of the concrete runs: `demo` holds 10 and 11, `spare` holds 20,
`locked` holds 30; discovery fails on the other tokens. -/
def demoKeys (l : String) : Option (List Nat) :=
  if l = "demo" then some [10, 11]
  else if l = "spare" then some [20]
  else if l = "locked" then some [30]
  else none

/-! ## `pkcs11.go`: the single-token helpers -/

/-- The value `pkcs11.Attribute`: an attribute type and a value. -/
structure Attribute where
  Typ : Nat
  Value : Bytes
  deriving DecidableEq, Repr

/-- The constant `pkcs11.CKA_CLASS`. -/
def CKA_CLASS : Nat := 0x00000000
/-- The constant `pkcs11.CKA_PRIVATE`. -/
def CKA_PRIVATE : Nat := 0x00000002
/-- The constant `pkcs11.CKA_KEY_TYPE`. -/
def CKA_KEY_TYPE : Nat := 0x00000100
/-- The constant `pkcs11.CKA_ID`. -/
def CKA_ID : Nat := 0x00000102
/-- The constant `pkcs11.CKO_PRIVATE_KEY`. -/
def CKO_PRIVATE_KEY : Nat := 0x00000003
/-- The constant `pkcs11.CKK_RSA`. -/
def CKK_RSA : Nat := 0x00000000

/-- The second argument of `pkcs11.NewAttribute`, as far as `GetKeyID` uses it. -/
inductive AttrArg where
  | bool (b : Bool)
  | uint (n : Nat)

/-- The library function `pkcs11.NewAttribute(typ, x)`: a boolean is one byte, an integer
is a `CK_ULONG` (eight bytes, least significant first). -/
def NewAttribute (typ : Nat) : AttrArg → Attribute
  | .bool b => ⟨typ, [if b then 1 else 0]⟩
  | .uint n => ⟨typ, (List.range 8).map (fun i => UInt8.ofNat (n / 256 ^ i % 256))⟩

/-- A non-nil `*pkcs11.Ctx`, given by the behaviour of the methods the code calls.
`GetAttributeValue` returns both of its results, since `GetKeyID` reads the first
whatever the second is. -/
structure Pkcs11Ctx (σ : Type) where
  GetSlotList : Bool → σ → Except GoError (List Nat) × σ
  GetTokenInfo : Nat → σ → Except GoError TokenInfo × σ
  FindObjectsInit : Nat → List Attribute → σ → Option GoError × σ
  FindObjects : Nat → Nat → σ → Except GoError (List Nat × Bool) × σ
  FindObjectsFinal : Nat → σ → Option GoError × σ
  GetAttributeValue : Nat → Nat → List Attribute → σ → (List Attribute × Option GoError) × σ

/-- A Go `map[int][]byte` that is not nil: an association list with one entry per key. -/
abbrev KeyMap := List (Int × Bytes)

/-- The assignment `m[k] = v`. -/
def KeyMap.set (m : KeyMap) (k : Int) (v : Bytes) : KeyMap :=
  (k, v) :: m.filter (fun kv => kv.1 != k)

/-- The lookup `m[k]`, `none` when the key is absent. -/
def KeyMap.get? (m : KeyMap) (k : Int) : Option Bytes :=
  m.lookup k

/-- The struct `PKCS11` of pkcs11.go 12-21.  `KeyID` is `none` for a nil map. -/
structure PKCS11 (σ : Type) where
  Pkcs11Provider : String
  Ctx : Pkcs11Ctx σ
  Label : String
  SlotID : Nat
  KeyID : Option KeyMap
  PIN : String
  SessionHandle : Nat

/-- The method `(*PKCS11).GetTokenLabel` of pkcs11.go 36-61: the updated struct, the
error returned and the world left.  The three cases are `len(slots) > 1`,
`len(slots) == 0` and the remaining one, in which `slots[0]` is the only slot. -/
def PKCS11.GetTokenLabel (p : PKCS11 σ) (s : σ) : (PKCS11 σ × Option GoError) × σ :=
  let r := p.Ctx.GetSlotList false s
  match r.1 with
  | .error e => ((p, some e), r.2)
  | .ok slots =>
    match slots with
    | _ :: _ :: _ => ((p, some ⟨"err: " ++ "Single token only"⟩), r.2)
    | [] => ((p, some ⟨"err: " ++ "No token"⟩), r.2)
    | [slotID] =>
      let r1 := p.Ctx.GetTokenInfo slotID r.2
      match r1.1 with
      | .error e => ((p, some e), r1.2)
      | .ok tokenInfo => (({ p with SlotID := slotID, Label := tokenInfo.Label }, none), r1.2)

/-- The search template of `GetKeyID` (pkcs11.go 89-94). -/
def findTemplate : List Attribute :=
  [ NewAttribute CKA_ID (.bool true),
    NewAttribute CKA_CLASS (.uint CKO_PRIVATE_KEY),
    NewAttribute CKA_PRIVATE (.bool true),
    NewAttribute CKA_KEY_TYPE (.uint CKK_RSA) ]

/-- The loop `for num, objValue := range obj` of `GetKeyID` (pkcs11.go 108-111), from
index `num` on.  The error of `GetAttributeValue` is discarded; `attrs[0]` on an empty
`attrs` is an index out of range, a run-time panic (`none`). -/
def keyIDLoop (p : PKCS11 σ) : Nat → List Nat → KeyMap → σ → Option (KeyMap × σ)
  | _, [], keyID, s => some (keyID, s)
  | num, objValue :: rest, keyID, s =>
    let r := p.Ctx.GetAttributeValue p.SessionHandle objValue findTemplate s
    let attrs := r.1.1
    match attrs[0]? with
    | none => none
    | some a0 => keyIDLoop p (num + 1) rest (keyID.set num a0.Value) r.2

/-- The method `(*PKCS11).GetKeyID` of pkcs11.go 88-114: `none` when the call panics,
otherwise the updated struct, the error returned and the world left. -/
def PKCS11.GetKeyID (p : PKCS11 σ) (s : σ) : Option ((PKCS11 σ × Option GoError) × σ) :=
  let s1 := (p.Ctx.FindObjectsInit p.SessionHandle findTemplate s).2
  let r := p.Ctx.FindObjects p.SessionHandle 1000 s1
  match r.1 with
  | .error e => some ((p, some e), r.2)
  | .ok (obj, _) =>
    let r1 := p.Ctx.FindObjectsFinal p.SessionHandle r.2
    match r1.1 with
    | some e => some ((p, some e), r1.2)
    | none =>
      match keyIDLoop p 0 obj [] r1.2 with
      | none => none
      | some (keyID, s2) => some (({ p with KeyID := some keyID }, none), s2)

/-- A successful attribute fetch, by the contract of `GetAttributeValue`: a nil error
and one attribute per entry of the template, of the same types in the same order. -/
def fetchOk (template : List Attribute) (r : List Attribute × Option GoError) : Prop :=
  r.2 = none ∧ r.1.map Attribute.Typ = template.map Attribute.Typ

instance (template : List Attribute) (r : List Attribute × Option GoError) :
    Decidable (fetchOk template r) := by
  unfold fetchOk
  infer_instance

/-- The `CKA_ID` value among fetched attributes: the value of the first attribute of
that type. -/
def ckaID (attrs : List Attribute) : Option Bytes :=
  (attrs.find? (fun a => a.Typ == CKA_ID)).map Attribute.Value

/-- A concrete driver context: the slots `slots`, of which slot `n` holds a token
labelled `label n` if any; the object search finds the handles `objs`; the attributes of
object `o` are `attrsOf o`, with an error when that list is empty.  The world counts
the driver calls. -/
def scriptedCtx (slots : List Nat) (label : Nat → Option String) (objs : List Nat)
    (attrsOf : Nat → List Attribute) : Pkcs11Ctx Nat where
  GetSlotList := fun _ s => (.ok slots, s + 1)
  GetTokenInfo := fun slot s =>
    (match label slot with
      | some l => .ok ⟨l⟩
      | none => .error ⟨"CKR_TOKEN_NOT_PRESENT"⟩, s + 1)
  FindObjectsInit := fun _ _ s => (none, s + 1)
  FindObjects := fun _ max s => (.ok (objs.take max, false), s + 1)
  FindObjectsFinal := fun _ s => (none, s + 1)
  GetAttributeValue := fun _ o _ s =>
    ((attrsOf o, if (attrsOf o).isEmpty then some ⟨"CKR_OBJECT_HANDLE_INVALID"⟩ else none),
      s + 1)

/-- A `PKCS11` value over `scriptedCtx`, before any discovery. -/
def scriptedPKCS11 (slots : List Nat) (label : Nat → Option String) (objs : List Nat)
    (attrsOf : Nat → List Attribute) : PKCS11 Nat where
  Pkcs11Provider := "/lib/softhsm.so"
  Ctx := scriptedCtx slots label objs attrsOf
  Label := ""
  SlotID := 0
  KeyID := none
  PIN := "1234"
  SessionHandle := 1

/-- Attributes of the concrete objects: object `o` answers the template with the
identifier `[o]`; object 0 does not exist. -/
def demoAttrs (o : Nat) : List Attribute :=
  if o = 0 then []
  else [⟨CKA_ID, [UInt8.ofNat o]⟩, ⟨CKA_CLASS, [3]⟩, ⟨CKA_PRIVATE, [1]⟩, ⟨CKA_KEY_TYPE, [0]⟩]

/-! # Theorems -/

/-! ## Passphrase-retry unlock -/

theorem entered_succ (env : KeyEnv Signer σ) (msg : String) (s : σ) (j : Nat) :
    entered env msg s (j + 1) = entered env msg (env.getPassphrase msg s).2 j := by
  simp [entered, promptState]

/-- A run of the retry loop whose attempt number `k` (from 0) is the first to decrypt
the key returns that signer after `k + 1` prompts. -/
theorem promptLoop_success (env : KeyEnv Signer σ) (keyData : Bytes) (msg : String)
    (sg : Signer) :
    ∀ (k n : Nat) (sig : Option Signer) (err : Option GoError) (s : σ) (log : List TermEvent),
      k < n →
      (∀ j, j < k → ∃ e, env.ParsePrivateKeyWithPassphrase keyData (entered env msg s j)
          = .error e) →
      env.ParsePrivateKeyWithPassphrase keyData (entered env msg s k) = .ok sg →
      (promptLoop env keyData msg n sig err s log).signer = some sg ∧
      (promptLoop env keyData msg n sig err s log).err = none ∧
      (promptLoop env keyData msg n sig err s log).log.countP TermEvent.isPrompt
        = log.countP TermEvent.isPrompt + (k + 1) := by
  intro k
  induction k with
  | zero =>
    intro n sig err s log hn _ hok
    obtain ⟨m, rfl⟩ : ∃ m, n = m + 1 := ⟨n - 1, by omega⟩
    have hok' : env.ParsePrivateKeyWithPassphrase keyData
        (TrimRight (env.getPassphrase msg s).1.1 "\n") = .ok sg := by
      simpa [entered, promptState] using hok
    simp [promptLoop, hok', TermEvent.isPrompt]
  | succ k ih =>
    intro n sig err s log hn hfail hok
    obtain ⟨m, rfl⟩ : ∃ m, n = m + 1 := ⟨n - 1, by omega⟩
    obtain ⟨e, he⟩ := hfail 0 (by omega)
    have he' : env.ParsePrivateKeyWithPassphrase keyData
        (TrimRight (env.getPassphrase msg s).1.1 "\n") = .error e := by
      simpa [entered, promptState] using he
    have hrec := ih m none (some e) (env.getPassphrase msg s).2
      (log ++ [.prompt msg, .println ("\n" ++ e.msg)]) (by omega)
      (fun j hj => by
        have := hfail (j + 1) (by omega)
        rwa [entered_succ] at this)
      (by rwa [entered_succ] at hok)
    simp only [promptLoop, he']
    refine ⟨hrec.1, hrec.2.1, ?_⟩
    rw [hrec.2.2]
    simp [TermEvent.isPrompt]
    omega

/-- A run of the retry loop none of whose `n` attempts decrypts the key prompts `n`
times and leaves the error of the last attempt. -/
theorem promptLoop_exhausted (env : KeyEnv Signer σ) (keyData : Bytes) (msg : String) :
    ∀ (n : Nat) (errs : Nat → GoError) (sig : Option Signer) (err : Option GoError) (s : σ)
      (log : List TermEvent),
      (∀ j, j < n → env.ParsePrivateKeyWithPassphrase keyData (entered env msg s j)
          = .error (errs j)) →
      (promptLoop env keyData msg n sig err s log).signer = (if n = 0 then sig else none) ∧
      (promptLoop env keyData msg n sig err s log).err
        = (if n = 0 then err else some (errs (n - 1))) ∧
      (promptLoop env keyData msg n sig err s log).log.countP TermEvent.isPrompt
        = log.countP TermEvent.isPrompt + n := by
  intro n
  induction n with
  | zero => intro errs sig err s log _; simp [promptLoop]
  | succ n ih =>
    intro errs sig err s log hfail
    have he := hfail 0 (by omega)
    have he' : env.ParsePrivateKeyWithPassphrase keyData
        (TrimRight (env.getPassphrase msg s).1.1 "\n") = .error (errs 0) := by
      simpa [entered, promptState] using he
    have hrec := ih (fun j => errs (j + 1)) none (some (errs 0)) (env.getPassphrase msg s).2
      (log ++ [.prompt msg, .println ("\n" ++ (errs 0).msg)])
      (fun j hj => by
        have := hfail (j + 1) (by omega)
        rwa [entered_succ] at this)
    simp only [promptLoop, he']
    refine ⟨?_, ?_, ?_⟩
    · rw [hrec.1]; simp
    · rw [hrec.2.1]
      cases n with
      | zero => simp
      | succ m => simp
    · rw [hrec.2.2]
      simp [TermEvent.isPrompt]
      omega

/-- The retry loop never removes a prompt from the log. -/
theorem promptLoop_prompts_mono (env : KeyEnv Signer σ) (keyData : Bytes) (msg : String) :
    ∀ (n : Nat) (sig : Option Signer) (err : Option GoError) (s : σ) (log : List TermEvent),
      log.countP TermEvent.isPrompt
        ≤ (promptLoop env keyData msg n sig err s log).log.countP TermEvent.isPrompt := by
  intro n
  induction n with
  | zero => intro sig err s log; simp [promptLoop]
  | succ n ih =>
    intro sig err s log
    simp only [promptLoop]
    split
    · simp
    · rename_i e _
      refine le_trans ?_ (ih none (some e) _ _)
      simp

/-- A retry loop with at least one iteration left prompts at least once. -/
theorem promptLoop_prompts_pos (env : KeyEnv Signer σ) (keyData : Bytes) (msg : String)
    (n : Nat) (sig : Option Signer) (err : Option GoError) (s : σ) :
    1 ≤ (promptLoop env keyData msg (n + 1) sig err s []).log.countP TermEvent.isPrompt := by
  simp only [promptLoop]
  split
  · simp [TermEvent.isPrompt]
  · rename_i e _
    refine le_trans ?_ (promptLoop_prompts_mono env keyData msg n none (some e) _ _)
    simp [TermEvent.isPrompt]

/-- C1: with an empty passphrase, on key data whose unencrypted parse fails with a
message containing "cannot decode", if for some `k` with `1 ≤ k ≤ 3` the passphrases
entered at prompts `1..k-1` fail decryption and the one entered at prompt `k` (trailing
newline stripped) decrypts the key, then `CreateSignerPublicKeyPrompt` returns that
signer with a nil error and `getPassphrase` is invoked exactly `k` times. -/
theorem CreateSignerPublicKeyPrompt_unlocks_at_attempt (env : KeyEnv Signer σ) (key : String)
    (s s1 : σ) (keyData : Bytes) (e0 : GoError) (k : Nat) (sg : Signer)
    (hread : env.ReadFile (env.getAbsPath key) s = (.ok keyData, s1))
    (hparse : env.ParsePrivateKey keyData = .error e0)
    (hdecode : MatchString "cannot decode" e0.msg = true)
    (hk1 : 1 ≤ k) (hk3 : k ≤ 3)
    (hfail : ∀ j, j + 1 < k → ∃ e, env.ParsePrivateKeyWithPassphrase keyData
      (entered env (env.getAbsPath key ++ "'s passphrase:") s1 j) = .error e)
    (hok : env.ParsePrivateKeyWithPassphrase keyData
      (entered env (env.getAbsPath key ++ "'s passphrase:") s1 (k - 1)) = .ok sg) :
    (CreateSignerPublicKeyPrompt env key "" s).signer = some sg ∧
    (CreateSignerPublicKeyPrompt env key "" s).err = none ∧
    (CreateSignerPublicKeyPrompt env key "" s).prompts = k := by
  have h := promptLoop_success env keyData (env.getAbsPath key ++ "'s passphrase:") sg
    (k - 1) 3 none (some e0) s1 [] (by omega) (fun j hj => hfail j (by omega)) hok
  simp only [CreateSignerPublicKeyPrompt, SignerResult.prompts, hread, hparse, hdecode]
  simp only [ne_eq, not_true_eq_false, if_false, if_true]
  refine ⟨h.1, h.2.1, ?_⟩
  rw [h.2.2]
  simp
  omega

/-- C1, a concrete run: the second line typed is the right passphrase. -/
theorem CreateSignerPublicKeyPrompt_unlocks_at_attempt_witness :
    (CreateSignerPublicKeyPrompt
        (scriptedEnv "ssh: cannot decode encrypted private keys" "pw" ["a\n", "pw\n", "c"])
        "id_rsa" "" 0).signer = some 7 ∧
    (CreateSignerPublicKeyPrompt
        (scriptedEnv "ssh: cannot decode encrypted private keys" "pw" ["a\n", "pw\n", "c"])
        "id_rsa" "" 0).err = none ∧
    (CreateSignerPublicKeyPrompt
        (scriptedEnv "ssh: cannot decode encrypted private keys" "pw" ["a\n", "pw\n", "c"])
        "id_rsa" "" 0).prompts = 2 :=
  CreateSignerPublicKeyPrompt_unlocks_at_attempt
    (scriptedEnv "ssh: cannot decode encrypted private keys" "pw" ["a\n", "pw\n", "c"])
    "id_rsa" 0 0 [1] ⟨"ssh: cannot decode encrypted private keys"⟩ 2 7 rfl rfl
    (by decide) (by decide) (by decide)
    (fun j hj => by
      obtain rfl : j = 0 := by omega
      exact ⟨⟨"bad passphrase a"⟩, rfl⟩)
    rfl

/-- C2: with an empty passphrase, on key data whose unencrypted parse fails with a
message containing "cannot decode", if none of the three passphrases entered decrypts
the key, `getPassphrase` is invoked exactly 3 times and the call fails with the error of
the third decryption attempt. -/
theorem CreateSignerPublicKeyPrompt_exhausted (env : KeyEnv Signer σ) (key : String)
    (s s1 : σ) (keyData : Bytes) (e0 e1 e2 e3 : GoError)
    (hread : env.ReadFile (env.getAbsPath key) s = (.ok keyData, s1))
    (hparse : env.ParsePrivateKey keyData = .error e0)
    (hdecode : MatchString "cannot decode" e0.msg = true)
    (h1 : env.ParsePrivateKeyWithPassphrase keyData
      (entered env (env.getAbsPath key ++ "'s passphrase:") s1 0) = .error e1)
    (h2 : env.ParsePrivateKeyWithPassphrase keyData
      (entered env (env.getAbsPath key ++ "'s passphrase:") s1 1) = .error e2)
    (h3 : env.ParsePrivateKeyWithPassphrase keyData
      (entered env (env.getAbsPath key ++ "'s passphrase:") s1 2) = .error e3) :
    (CreateSignerPublicKeyPrompt env key "" s).prompts = 3 ∧
    (CreateSignerPublicKeyPrompt env key "" s).signer = none ∧
    (CreateSignerPublicKeyPrompt env key "" s).err = some e3 := by
  have h := promptLoop_exhausted env keyData (env.getAbsPath key ++ "'s passphrase:") 3
    (fun j => if j = 0 then e1 else if j = 1 then e2 else e3) none (some e0) s1 []
    (fun j hj => by
      have hj' : j = 0 ∨ j = 1 ∨ j = 2 := by omega
      rcases hj' with rfl | rfl | rfl
      · simpa using h1
      · simpa using h2
      · simpa using h3)
  simp only [CreateSignerPublicKeyPrompt, SignerResult.prompts, hread, hparse, hdecode]
  simp only [ne_eq, not_true_eq_false, if_false, if_true]
  refine ⟨?_, ?_, ?_⟩
  · rw [h.2.2]; simp
  · rw [h.1]; simp
  · rw [h.2.1]; simp

/-- C2, a concrete run: three wrong lines are typed; the error returned is that of the
third attempt, which differs from the parse error and from the earlier attempts'. -/
theorem CreateSignerPublicKeyPrompt_exhausted_witness :
    (CreateSignerPublicKeyPrompt
        (scriptedEnv "ssh: cannot decode encrypted private keys" "pw" ["a\n", "b\n", "c"])
        "id_rsa" "" 0).prompts = 3 ∧
    (CreateSignerPublicKeyPrompt
        (scriptedEnv "ssh: cannot decode encrypted private keys" "pw" ["a\n", "b\n", "c"])
        "id_rsa" "" 0).signer = none ∧
    (CreateSignerPublicKeyPrompt
        (scriptedEnv "ssh: cannot decode encrypted private keys" "pw" ["a\n", "b\n", "c"])
        "id_rsa" "" 0).err = some ⟨"bad passphrase c"⟩ :=
  CreateSignerPublicKeyPrompt_exhausted
    (scriptedEnv "ssh: cannot decode encrypted private keys" "pw" ["a\n", "b\n", "c"])
    "id_rsa" 0 0 [1] ⟨"ssh: cannot decode encrypted private keys"⟩ ⟨"bad passphrase a"⟩
    ⟨"bad passphrase b"⟩ ⟨"bad passphrase c"⟩ rfl rfl (by decide) rfl rfl rfl

/-- C3: `CreateSignerPublicKeyPrompt` never invokes `getPassphrase` and returns exactly
the two results of a single parse attempt of the key data read when (a) the passphrase is
non-empty (one parse with that passphrase, whether it succeeds or fails), (b) the
passphrase is empty and the key data parses unencrypted, (c) the passphrase is empty and
the unencrypted parse fails with a message that does not contain "cannot decode".  The
prompt is invoked at least once if and only if the passphrase is empty and the
unencrypted parse of the key data read fails with a message containing
"cannot decode". -/
theorem CreateSignerPublicKeyPrompt_prompts_only_when_encrypted (env : KeyEnv Signer σ)
    (key password : String) (s : σ) :
    (∀ keyData s1, env.ReadFile (env.getAbsPath key) s = (.ok keyData, s1) →
      (password ≠ "" →
        (CreateSignerPublicKeyPrompt env key password s).prompts = 0 ∧
        ((CreateSignerPublicKeyPrompt env key password s).signer,
          (CreateSignerPublicKeyPrompt env key password s).err)
          = goPair (env.ParsePrivateKeyWithPassphrase keyData password)) ∧
      (password = "" → ∀ sg, env.ParsePrivateKey keyData = .ok sg →
        (CreateSignerPublicKeyPrompt env key password s).prompts = 0 ∧
        ((CreateSignerPublicKeyPrompt env key password s).signer,
          (CreateSignerPublicKeyPrompt env key password s).err) = (some sg, none)) ∧
      (password = "" → ∀ e, env.ParsePrivateKey keyData = .error e →
        MatchString "cannot decode" e.msg = false →
        (CreateSignerPublicKeyPrompt env key password s).prompts = 0 ∧
        ((CreateSignerPublicKeyPrompt env key password s).signer,
          (CreateSignerPublicKeyPrompt env key password s).err) = (none, some e))) ∧
    (1 ≤ (CreateSignerPublicKeyPrompt env key password s).prompts ↔
      password = "" ∧ ∃ keyData s1 e,
        env.ReadFile (env.getAbsPath key) s = (.ok keyData, s1) ∧
        env.ParsePrivateKey keyData = .error e ∧
        MatchString "cannot decode" e.msg = true) := by
  constructor
  · intro keyData s1 hread
    refine ⟨?_, ?_, ?_⟩
    · intro hp
      simp [CreateSignerPublicKeyPrompt, SignerResult.prompts, hread, hp]
    · intro hp sg hsg
      simp [CreateSignerPublicKeyPrompt, SignerResult.prompts, hread, hp, hsg]
    · intro hp e he hm
      simp [CreateSignerPublicKeyPrompt, SignerResult.prompts, hread, hp, he, hm]
  · rcases hread : env.ReadFile (env.getAbsPath key) s with ⟨rd, s1⟩
    cases rd with
    | error e0 => simp [CreateSignerPublicKeyPrompt, SignerResult.prompts, hread]
    | ok keyData =>
      by_cases hp : password = ""
      · subst hp
        cases hpk : env.ParsePrivateKey keyData with
        | ok sg => simp [CreateSignerPublicKeyPrompt, SignerResult.prompts, hread, hpk]
        | error e =>
          cases hm : MatchString "cannot decode" e.msg with
          | false =>
            simp [CreateSignerPublicKeyPrompt, SignerResult.prompts, hread, hpk, hm]
          | true =>
            have hpos := promptLoop_prompts_pos env keyData
              (env.getAbsPath key ++ "'s passphrase:") 2 none (some e) s1
            simp only [CreateSignerPublicKeyPrompt, SignerResult.prompts, hread, hpk, hm]
            simp only [ne_eq, not_true_eq_false, if_false, if_true]
            constructor
            · intro _; exact ⟨trivial, keyData, s1, e, rfl, hpk, hm⟩
            · intro _; exact hpos
      · simp [CreateSignerPublicKeyPrompt, SignerResult.prompts, hread, hp]

/-- C3, a concrete run: a passphrase is supplied up front and is wrong; nothing is
prompted although the key is encrypted, and the error is that of the one parse. -/
theorem CreateSignerPublicKeyPrompt_prompts_only_when_encrypted_witness :
    (CreateSignerPublicKeyPrompt
        (scriptedEnv "ssh: cannot decode encrypted private keys" "pw" ["pw\n"])
        "id_rsa" "x" 0).prompts = 0 ∧
    (CreateSignerPublicKeyPrompt
        (scriptedEnv "ssh: cannot decode encrypted private keys" "pw" ["pw\n"])
        "id_rsa" "x" 0).err = some ⟨"bad passphrase x"⟩ :=
  have h := ((CreateSignerPublicKeyPrompt_prompts_only_when_encrypted
    (scriptedEnv "ssh: cannot decode encrypted private keys" "pw" ["pw\n"])
    "id_rsa" "x" 0).1 [1] 0 rfl).1 (by decide)
  ⟨h.1, congrArg Prod.snd h.2⟩

/-! ## Signer aggregation -/

section AggregationTheorems

variable {Module Slot Cx CSigner : Type}

/-- The adaptation loop appends one element per key, in order. -/
theorem adaptLoop_eq (d : P11Driver Module Slot Cx CSigner Signer σ) :
    ∀ (sigs : List CSigner) (signers : List (Option Signer)),
      adaptLoop d sigs signers
        = signers ++ sigs.map (fun sig => (goPair (d.NewSignerFromSigner sig)).1) := by
  intro sigs
  induction sigs with
  | nil => intro signers; simp [adaptLoop]
  | cons sig rest ih => intro signers; simp [adaptLoop, ih]

/-- The sessions collected by the slot loop: one per slot whose token-info read
succeeds, in slot order. -/
theorem tokenLoop_sessions (d : P11Driver Module Slot Cx CSigner Signer σ) (pin : String)
    (ti : Slot → Except GoError TokenInfo)
    (hti : ∀ slot s, (d.TokenInfo slot s).1 = ti slot) :
    ∀ (slots : List Slot) (c11array : List (C11 Cx)) (s : σ) (log : List (P11Call Slot)),
      (tokenLoop d pin slots c11array s log).1
        = c11array ++ slots.filterMap (fun slot =>
            match ti slot with
            | .error _ => none
            | .ok info => some ⟨info.Label, pin, none⟩) := by
  intro slots
  induction slots with
  | nil => intro c11array s log; simp [tokenLoop]
  | cons slot rest ih =>
    intro c11array s log
    simp only [tokenLoop, hti]
    cases h : ti slot with
    | error e => simp [ih, List.filterMap_cons, h]
    | ok info => simp [ih, List.filterMap_cons, h]

/-- The slot loop logs one token-info read per slot and nothing else. -/
theorem tokenLoop_calls (d : P11Driver Module Slot Cx CSigner Signer σ) (pin : String) :
    ∀ (slots : List Slot) (c11array : List (C11 Cx)) (s : σ) (log : List (P11Call Slot)),
      (tokenLoop d pin slots c11array s log).2.2 = log ++ slots.map P11Call.TokenInfo := by
  intro slots
  induction slots with
  | nil => intro c11array s log; simp [tokenLoop]
  | cons slot rest ih =>
    intro c11array s log
    simp only [tokenLoop]
    split <;> simp [ih]

/-- The session loop only extends the call log, and never by a `Destroy`. -/
theorem signerLoop_calls (d : P11Driver Module Slot Cx CSigner Signer σ) (provider : String) :
    ∀ (cs : List (C11 Cx)) (signers : List (Option Signer)) (s : σ)
      (log : List (P11Call Slot)),
      ∃ post, (signerLoop d provider cs signers s log).2.2 = log ++ post ∧
        P11Call.Destroy ∉ post := by
  intro cs
  induction cs with
  | nil => intro signers s log; exact ⟨[], by simp [signerLoop]⟩
  | cons c rest ih =>
    intro signers s log
    simp only [signerLoop]
    split
    · obtain ⟨post, hp, hn⟩ := ih signers (d.CreateCtx c provider s).2
        (log ++ [.CreateCtx c.Label provider])
      exact ⟨.CreateCtx c.Label provider :: post, by simp [hp], by simp [hn]⟩
    · split
      · obtain ⟨post, hp, hn⟩ := ih signers
          (d.GetSigner (d.CreateCtx c provider s).1.1 (d.CreateCtx c provider s).2).2
          (log ++ [.CreateCtx c.Label provider, .GetSigner c.Label])
        exact ⟨.CreateCtx c.Label provider :: .GetSigner c.Label :: post, by simp [hp],
          by simp [hn]⟩
      · rename_i sigs _
        obtain ⟨post, hp, hn⟩ := ih (adaptLoop d sigs signers)
          (d.GetSigner (d.CreateCtx c provider s).1.1 (d.CreateCtx c provider s).2).2
          (log ++ [.CreateCtx c.Label provider, .GetSigner c.Label])
        exact ⟨.CreateCtx c.Label provider :: .GetSigner c.Label :: post, by simp [hp],
          by simp [hn]⟩

/-- The signers collected by the session loop: for each session whose context creation
and signer discovery succeed, in order, one element per key found. -/
theorem signerLoop_signers (d : P11Driver Module Slot Cx CSigner Signer σ) (provider : String)
    (cc : C11 Cx → C11 Cx × Option GoError) (gs : C11 Cx → Except GoError (List CSigner))
    (hcc : ∀ c s, (d.CreateCtx c provider s).1 = cc c)
    (hgs : ∀ c s, (d.GetSigner c s).1 = gs c) :
    ∀ (cs : List (C11 Cx)) (signers : List (Option Signer)) (s : σ)
      (log : List (P11Call Slot)),
      (signerLoop d provider cs signers s log).1
        = signers ++ ((cs.filterMap (sessionSigners cc gs)).flatten.map
            (fun sig => (goPair (d.NewSignerFromSigner sig)).1)) := by
  intro cs
  induction cs with
  | nil => intro signers s log; simp [signerLoop]
  | cons c rest ih =>
    intro signers s log
    simp only [signerLoop, hcc, hgs]
    cases h2 : (cc c).2 with
    | some e => simp [ih, List.filterMap_cons, sessionSigners, h2]
    | none =>
      cases h3 : gs (cc c).1 with
      | error e => simp [ih, List.filterMap_cons, sessionSigners, h2, h3]
      | ok sigs =>
        simp [ih, List.filterMap_cons, sessionSigners, h2, h3, adaptLoop_eq]

/-- What `CreateSignerPKCS11` returns whatever the adaptations do: one element per key of
every token that succeeded, the element of a key whose adaptation fails being nil. -/
theorem CreateSignerPKCS11_signers_general (d : P11Driver Module Slot Cx CSigner Signer σ)
    (provider pin : String) (s : σ) (modl : Module) (slots : List Slot)
    (ti : Slot → Except GoError TokenInfo) (cc : C11 Cx → C11 Cx × Option GoError)
    (gs : C11 Cx → Except GoError (List CSigner))
    (hopen : (d.OpenModule (d.getAbsPath provider) s).1 = .ok modl)
    (hslots : (d.Slots modl (d.OpenModule (d.getAbsPath provider) s).2).1 = .ok slots)
    (hti : ∀ slot s, (d.TokenInfo slot s).1 = ti slot)
    (hcc : ∀ c s, (d.CreateCtx c (d.getAbsPath provider) s).1 = cc c)
    (hgs : ∀ c s, (d.GetSigner c s).1 = gs c) :
    (CreateSignerPKCS11 d provider pin s).signers
      = (slots.filterMap (tokenSigners ti cc gs pin)).flatten.map
          (fun sig => (goPair (d.NewSignerFromSigner sig)).1) := by
  have hfm : (slots.filterMap (fun slot =>
        match ti slot with
        | .error _ => (none : Option (C11 Cx))
        | .ok info => some ⟨info.Label, pin, none⟩)).filterMap (sessionSigners cc gs)
      = slots.filterMap (tokenSigners ti cc gs pin) := by
    rw [List.filterMap_filterMap]
    congr 1
    funext slot
    cases h : ti slot <;> simp [tokenSigners, h]
  simp only [CreateSignerPKCS11, hopen, hslots]
  rw [signerLoop_signers d (d.getAbsPath provider) cc gs hcc hgs,
    tokenLoop_sessions d pin ti hti]
  simp only [List.nil_append, hfm]

/-- C4: when the provider opens, the slot listing succeeds and every key adaptation
succeeds, the signers returned by `CreateSignerPKCS11` are the concatenation, over the
slots in enumeration order whose token-info read, authenticated-context creation and
signer discovery all succeeded, of that token's signers in discovery order (each
adapted).  The outcome of a driver call is taken to be determined by its arguments
(`ti`, `cc`, `gs`), which is what gives "the signers of a token" a meaning. -/
theorem CreateSignerPKCS11_signers_concat (d : P11Driver Module Slot Cx CSigner Signer σ)
    (provider pin : String) (s : σ) (modl : Module) (slots : List Slot)
    (ti : Slot → Except GoError TokenInfo) (cc : C11 Cx → C11 Cx × Option GoError)
    (gs : C11 Cx → Except GoError (List CSigner)) (ad : CSigner → Signer)
    (hopen : (d.OpenModule (d.getAbsPath provider) s).1 = .ok modl)
    (hslots : (d.Slots modl (d.OpenModule (d.getAbsPath provider) s).2).1 = .ok slots)
    (hti : ∀ slot s, (d.TokenInfo slot s).1 = ti slot)
    (hcc : ∀ c s, (d.CreateCtx c (d.getAbsPath provider) s).1 = cc c)
    (hgs : ∀ c s, (d.GetSigner c s).1 = gs c)
    (had : ∀ slot ∈ slots, ∀ sigs, tokenSigners ti cc gs pin slot = some sigs →
      ∀ sig ∈ sigs, d.NewSignerFromSigner sig = .ok (ad sig)) :
    (CreateSignerPKCS11 d provider pin s).signers
      = (slots.filterMap (tokenSigners ti cc gs pin)).flatten.map (fun sig => some (ad sig)) := by
  rw [CreateSignerPKCS11_signers_general d provider pin s modl slots ti cc gs hopen hslots
    hti hcc hgs]
  apply List.map_congr_left
  intro sig hsig
  obtain ⟨sigs, hsigs, hmem⟩ := List.mem_flatten.mp hsig
  obtain ⟨slot, hslot, hts⟩ := List.mem_filterMap.mp hsigs
  simp [had slot hslot sigs hts sig hmem, goPair]

/-- C4, a concrete run: five slots, of which slot 1 is empty, the session of slot 2
cannot be opened and signer discovery fails on slot 3. -/
theorem CreateSignerPKCS11_signers_concat_witness :
    (CreateSignerPKCS11
        (scriptedDriver (.ok [0, 1, 2, 3, 4]) demoLabel demoKeys (fun _ => false))
        "/lib/softhsm.so" "1234" 0).signers = [some 110, some 111, some 120] :=
  (CreateSignerPKCS11_signers_concat
    (scriptedDriver (.ok [0, 1, 2, 3, 4]) demoLabel demoKeys (fun _ => false))
    "/lib/softhsm.so" "1234" 0 () [0, 1, 2, 3, 4]
    (fun slot => ((scriptedDriver (.ok [0, 1, 2, 3, 4]) demoLabel demoKeys
      (fun _ => false)).TokenInfo slot 0).1)
    (fun c => ((scriptedDriver (.ok [0, 1, 2, 3, 4]) demoLabel demoKeys
      (fun _ => false)).CreateCtx c "/lib/softhsm.so" 0).1)
    (fun c => ((scriptedDriver (.ok [0, 1, 2, 3, 4]) demoLabel demoKeys
      (fun _ => false)).GetSigner c 0).1)
    (fun k => 100 + k) rfl rfl (fun _ _ => rfl) (fun _ _ => rfl) (fun _ _ => rfl)
    (fun _ _ _ _ _ _ => rfl)).trans (by decide)

/-- C5: whenever the provider module opens and its slot listing succeeds,
`CreateSignerPKCS11` and `CreateAuthMethodPKCS11` return a nil error, whatever the
outcomes of the token-info reads, of the session openings, of the signer discoveries and
of the key adaptations. -/
theorem CreateSignerPKCS11_nil_error (d : P11Driver Module Slot Cx CSigner Signer σ)
    (provider pin : String) (s : σ) (modl : Module) (slots : List Slot)
    (hopen : (d.OpenModule (d.getAbsPath provider) s).1 = .ok modl)
    (hslots : (d.Slots modl (d.OpenModule (d.getAbsPath provider) s).2).1 = .ok slots) :
    (CreateSignerPKCS11 d provider pin s).err = none ∧
    (CreateAuthMethodPKCS11 d provider pin s).err = none := by
  have h : (CreateSignerPKCS11 d provider pin s).err = none := by
    simp only [CreateSignerPKCS11, hopen, hslots]
  refine ⟨h, ?_⟩
  simp only [CreateAuthMethodPKCS11, h]

/-- C5, a concrete run in which every token fails: slot 1 is empty, the session of
slot 2 cannot be opened, signer discovery fails on slot 3; the result is empty and the
error is nil. -/
theorem CreateSignerPKCS11_nil_error_witness :
    ((CreateSignerPKCS11
        (scriptedDriver (.ok [1, 2, 3]) demoLabel demoKeys (fun _ => true))
        "/lib/softhsm.so" "1234" 0).err = none ∧
    (CreateAuthMethodPKCS11
        (scriptedDriver (.ok [1, 2, 3]) demoLabel demoKeys (fun _ => true))
        "/lib/softhsm.so" "1234" 0).err = none) ∧
    (CreateSignerPKCS11
        (scriptedDriver (.ok [1, 2, 3]) demoLabel demoKeys (fun _ => true))
        "/lib/softhsm.so" "1234" 0).signers = [] ∧
    (CreateAuthMethodPKCS11
        (scriptedDriver (.ok [1, 2, 3]) demoLabel demoKeys (fun _ => true))
        "/lib/softhsm.so" "1234" 0).auth = [] :=
  ⟨CreateSignerPKCS11_nil_error
    (scriptedDriver (.ok [1, 2, 3]) demoLabel demoKeys (fun _ => true))
    "/lib/softhsm.so" "1234" 0 () [1, 2, 3] rfl rfl, by decide, by decide⟩

/-- C6, the code at a failing input: the token `demo` holds the keys 10 and 11 and the
adaptation of key 10 fails.  The list returned has three elements for two adapted keys,
and its first element is a nil signer. -/
theorem CreateSignerPKCS11_appends_nil_signer :
    (CreateSignerPKCS11
        (scriptedDriver (.ok [0, 4]) demoLabel demoKeys (fun k => k == 10))
        "/lib/softhsm.so" "1234" 0).signers = [none, some 111, some 120] ∧
    (CreateSignerPKCS11
        (scriptedDriver (.ok [0, 4]) demoLabel demoKeys (fun k => k == 10))
        "/lib/softhsm.so" "1234" 0).err = none := by
  decide

/-- When the slot listing succeeds, the module is destroyed exactly once, after the
token-info reads and before every call that follows (the session openings). -/
theorem CreateSignerPKCS11_destroy_when_listed (d : P11Driver Module Slot Cx CSigner Signer σ)
    (provider pin : String) (s : σ) (modl : Module) (slots : List Slot)
    (hopen : (d.OpenModule (d.getAbsPath provider) s).1 = .ok modl)
    (hslots : (d.Slots modl (d.OpenModule (d.getAbsPath provider) s).2).1 = .ok slots) :
    ∃ post, (CreateSignerPKCS11 d provider pin s).calls
        = [.OpenModule (d.getAbsPath provider), .Slots] ++ slots.map P11Call.TokenInfo
          ++ [.Destroy] ++ post ∧
      P11Call.Destroy ∉ post := by
  simp only [CreateSignerPKCS11, hopen, hslots]
  obtain ⟨post, hp, hn⟩ := signerLoop_calls d (d.getAbsPath provider)
    (tokenLoop d pin slots [] (d.Slots modl (d.OpenModule (d.getAbsPath provider) s).2).2
      [.OpenModule (d.getAbsPath provider), .Slots]).1 []
    (d.Destroy modl (tokenLoop d pin slots []
      (d.Slots modl (d.OpenModule (d.getAbsPath provider) s).2).2
      [.OpenModule (d.getAbsPath provider), .Slots]).2.1)
    ((tokenLoop d pin slots [] (d.Slots modl (d.OpenModule (d.getAbsPath provider) s).2).2
      [.OpenModule (d.getAbsPath provider), .Slots]).2.2 ++ [.Destroy])
  refine ⟨post, ?_, hn⟩
  rw [hp, tokenLoop_calls]

/-- C9, the code at a failing input: the module opens and its slot listing fails.  The
call returns the listing error after two driver calls, none of which destroys the
module. -/
theorem CreateSignerPKCS11_module_not_destroyed :
    (CreateSignerPKCS11
        (scriptedDriver (.error ⟨"CKR_GENERAL_ERROR"⟩) demoLabel demoKeys (fun _ => false))
        "/lib/softhsm.so" "1234" 0).calls = [.OpenModule "/lib/softhsm.so", .Slots] ∧
    P11Call.Destroy ∉ (CreateSignerPKCS11
        (scriptedDriver (.error ⟨"CKR_GENERAL_ERROR"⟩) demoLabel demoKeys (fun _ => false))
        "/lib/softhsm.so" "1234" 0).calls ∧
    (CreateSignerPKCS11
        (scriptedDriver (.error ⟨"CKR_GENERAL_ERROR"⟩) demoLabel demoKeys (fun _ => false))
        "/lib/softhsm.so" "1234" 0).err = some ⟨"CKR_GENERAL_ERROR"⟩ := by
  decide

end AggregationTheorems

/-! ## The single-token helpers -/

/-- C7, the code at a failing input: the slots 4 and 5 are listed, slot 4 holds the
token `spare` and slot 5 is empty, so exactly one token is discovered.  `GetTokenLabel`
returns the error "Single token only" and sets neither `Label` nor `SlotID`: it counts
the slots listed by `GetSlotList(false)`, empty ones included, not the tokens. -/
theorem GetTokenLabel_rejects_one_token_beside_empty_slot :
    ([4, 5].filter (fun slot => (demoLabel slot).isSome)) = [4] ∧
    ((scriptedPKCS11 [4, 5] demoLabel [] demoAttrs).GetTokenLabel 0).1.2
      = some ⟨"err: Single token only"⟩ ∧
    ((scriptedPKCS11 [4, 5] demoLabel [] demoAttrs).GetTokenLabel 0).1.1.Label = "" ∧
    ((scriptedPKCS11 [4, 5] demoLabel [] demoAttrs).GetTokenLabel 0).1.1.SlotID = 0 := by
  decide

/-- What `GetTokenLabel` does in terms of the slots listed: when the slot listing
succeeds, it returns an error if and only if no slot or at least two slots are listed, or
the token-info read of the single slot listed fails; when exactly one slot is listed and
its token info is read, it returns nil and sets `Label` and `SlotID` from it. -/
theorem GetTokenLabel_by_slots (p : PKCS11 σ) (s : σ) (slots : List Nat)
    (hlist : (p.Ctx.GetSlotList false s).1 = .ok slots) :
    ((p.GetTokenLabel s).1.2 ≠ none ↔
      (slots.length = 0 ∨ 2 ≤ slots.length ∨
        ∃ slotID e, slots = [slotID] ∧
          (p.Ctx.GetTokenInfo slotID (p.Ctx.GetSlotList false s).2).1 = .error e)) ∧
    (∀ slotID info, slots = [slotID] →
      (p.Ctx.GetTokenInfo slotID (p.Ctx.GetSlotList false s).2).1 = .ok info →
      (p.GetTokenLabel s).1.2 = none ∧
      (p.GetTokenLabel s).1.1.Label = info.Label ∧
      (p.GetTokenLabel s).1.1.SlotID = slotID) := by
  constructor
  · match slots, hlist with
    | [], hlist => simp [PKCS11.GetTokenLabel, hlist]
    | _ :: _ :: _, hlist => simp [PKCS11.GetTokenLabel, hlist]
    | [slotID], hlist =>
      cases h : (p.Ctx.GetTokenInfo slotID (p.Ctx.GetSlotList false s).2).1 with
      | error e => simp [PKCS11.GetTokenLabel, hlist, h]
      | ok info => simp [PKCS11.GetTokenLabel, hlist, h]
  · intro slotID info hs hinfo
    subst hs
    simp [PKCS11.GetTokenLabel, hlist, hinfo]

/-- A concrete run of `GetTokenLabel`: the single slot 4 holds the token `spare`. -/
theorem GetTokenLabel_by_slots_single :
    ((scriptedPKCS11 [4] demoLabel [] demoAttrs).GetTokenLabel 0).1.2 = none ∧
    ((scriptedPKCS11 [4] demoLabel [] demoAttrs).GetTokenLabel 0).1.1.Label = "spare" ∧
    ((scriptedPKCS11 [4] demoLabel [] demoAttrs).GetTokenLabel 0).1.1.SlotID = 4 :=
  (GetTokenLabel_by_slots (scriptedPKCS11 [4] demoLabel [] demoAttrs) 0 [4] rfl).2
    4 ⟨"spare"⟩ rfl rfl

theorem KeyMap.get?_set_self (m : KeyMap) (k : Int) (v : Bytes) :
    (m.set k v).get? k = some v := by
  simp [KeyMap.set, KeyMap.get?, List.lookup_cons]

theorem KeyMap.get?_filter_ne (k k1 : Int) (hk : k1 ≠ k) :
    ∀ m : KeyMap, (m.filter (fun kv => kv.1 != k)).lookup k1 = m.lookup k1 := by
  intro m
  induction m with
  | nil => simp
  | cons kv rest ih =>
    obtain ⟨a, b⟩ := kv
    by_cases ha : a = k
    · subst ha
      have h1 : (k1 == a) = false := by simpa using hk
      simp [List.filter_cons, List.lookup_cons, h1, ih]
    · have h2 : (a != k) = true := by simpa using ha
      simp only [List.filter_cons, h2, if_true, List.lookup_cons, ih]

theorem KeyMap.get?_set_ne (m : KeyMap) (k k1 : Int) (v : Bytes) (hk : k1 ≠ k) :
    (m.set k v).get? k1 = m.get? k1 := by
  have h1 : (k1 == k) = false := by simpa using hk
  simp [KeyMap.set, KeyMap.get?, List.lookup_cons, h1, KeyMap.get?_filter_ne k k1 hk]

/-- A successful fetch against the search template puts the `CKA_ID` attribute first. -/
theorem fetchOk_head (attrs : List Attribute) (err : Option GoError) (v : Bytes)
    (hok : fetchOk findTemplate (attrs, err)) (hid : ckaID attrs = some v) :
    ∃ a0, attrs[0]? = some a0 ∧ a0.Value = v := by
  obtain ⟨_, htypes⟩ := hok
  match attrs, htypes, hid with
  | [], htypes, _ => simp [findTemplate] at htypes
  | a0 :: rest, htypes, hid =>
    have h0 : a0.Typ = CKA_ID := by
      simp [findTemplate, NewAttribute] at htypes
      exact htypes.1
    refine ⟨a0, by simp, ?_⟩
    simpa [ckaID, List.find?_cons, h0] using hid

/-- The key loop over objects whose fetches succeed completes, records the identifier of
the object at position `i` under the key `num + i` and leaves the other keys as they
were. -/
theorem keyIDLoop_ok (p : PKCS11 σ) (idOf : Nat → Bytes) :
    ∀ (objs : List Nat) (num : Nat) (keyID : KeyMap) (s : σ),
      (∀ o ∈ objs, ∀ s1,
        fetchOk findTemplate (p.Ctx.GetAttributeValue p.SessionHandle o findTemplate s1).1 ∧
        ckaID (p.Ctx.GetAttributeValue p.SessionHandle o findTemplate s1).1.1
          = some (idOf o)) →
      ∃ keyID1 s1, keyIDLoop p num objs keyID s = some (keyID1, s1) ∧
        (∀ i (h : i < objs.length),
          keyID1.get? ((num + i : Nat) : Int) = some (idOf (objs.get ⟨i, h⟩))) ∧
        (∀ k : Int, (k < num ∨ (num : Int) + objs.length ≤ k) →
          keyID1.get? k = keyID.get? k) := by
  intro objs
  induction objs with
  | nil =>
    intro num keyID s _
    exact ⟨keyID, s, by simp [keyIDLoop], by simp, by simp⟩
  | cons o rest ih =>
    intro num keyID s hfetch
    obtain ⟨hok, hid⟩ := hfetch o (by simp) s
    obtain ⟨a0, ha0, hv⟩ := fetchOk_head _ _ _ hok hid
    obtain ⟨keyID1, s1, hrun, hin, hout⟩ := ih (num + 1) (keyID.set num a0.Value)
      (p.Ctx.GetAttributeValue p.SessionHandle o findTemplate s).2
      (fun o1 ho1 => hfetch o1 (by simp [ho1]))
    refine ⟨keyID1, s1, ?_, ?_, ?_⟩
    · simp only [keyIDLoop, ha0, hrun]
    · intro i h
      cases i with
      | zero =>
        have := hout (num : Int) (Or.inl (by push_cast; omega))
        simp only [Nat.add_zero, List.get_eq_getElem, List.getElem_cons_zero]
        rw [this, KeyMap.get?_set_self, hv]
      | succ j =>
        have hj : j < rest.length := by simpa using h
        have := hin j hj
        simp only [List.get_eq_getElem, List.getElem_cons_succ]
        simp only [List.get_eq_getElem] at this
        rw [← this]
        congr 2
        omega
    · intro k hk
      have hk1 : k < ((num + 1 : Nat) : Int) ∨ ((num + 1 : Nat) : Int) + rest.length ≤ k := by
        rcases hk with hk | hk
        · left; push_cast; omega
        · right; simp only [List.length_cons] at hk; push_cast at hk ⊢; omega
      rw [hout k hk1]
      apply KeyMap.get?_set_ne
      rcases hk with hk | hk
      · omega
      · simp only [List.length_cons] at hk; push_cast at hk; omega

/-- C8: when the object search and its finalisation succeed and return the objects
`objs`, each of whose attribute fetches succeeds, `GetKeyID` returns nil and sets
`KeyID` to a non-nil map whose keys are exactly `0..n-1` (`n` the number of objects),
`KeyID[i]` being the `CKA_ID` value of the object at position `i`; for no object the
map is empty.  (The bound `n ≤ 1000` of the driver is not needed.) -/
theorem GetKeyID_populates (p : PKCS11 σ) (s : σ) (objs : List Nat) (more : Bool)
    (idOf : Nat → Bytes)
    (hfind : (p.Ctx.FindObjects p.SessionHandle 1000
      (p.Ctx.FindObjectsInit p.SessionHandle findTemplate s).2).1 = .ok (objs, more))
    (hfinal : (p.Ctx.FindObjectsFinal p.SessionHandle
      (p.Ctx.FindObjects p.SessionHandle 1000
        (p.Ctx.FindObjectsInit p.SessionHandle findTemplate s).2).2).1 = none)
    (hfetch : ∀ o ∈ objs, ∀ s1,
      fetchOk findTemplate (p.Ctx.GetAttributeValue p.SessionHandle o findTemplate s1).1 ∧
      ckaID (p.Ctx.GetAttributeValue p.SessionHandle o findTemplate s1).1.1
        = some (idOf o)) :
    ∃ keyID s1, p.GetKeyID s = some (({ p with KeyID := some keyID }, none), s1) ∧
      (∀ i (h : i < objs.length), keyID.get? (i : Int) = some (idOf (objs.get ⟨i, h⟩))) ∧
      (∀ k : Int, keyID.get? k ≠ none → 0 ≤ k ∧ k < objs.length) ∧
      (objs = [] → keyID = []) := by
  obtain ⟨keyID, s1, hrun, hin, hout⟩ := keyIDLoop_ok p idOf objs 0 []
    (p.Ctx.FindObjectsFinal p.SessionHandle
      (p.Ctx.FindObjects p.SessionHandle 1000
        (p.Ctx.FindObjectsInit p.SessionHandle findTemplate s).2).2).2 hfetch
  refine ⟨keyID, s1, ?_, ?_, ?_, ?_⟩
  · simp only [PKCS11.GetKeyID, hfind, hfinal, hrun]
  · intro i h
    simpa using hin i h
  · intro k hk
    by_contra hcon
    apply hk
    rw [hout k (by push_cast; omega)]
    simp [KeyMap.get?]
  · intro he
    subst he
    simp only [keyIDLoop, Option.some.injEq, Prod.mk.injEq] at hrun
    exact hrun.1.symm

/-- C8, a concrete run: the search finds the objects 7 and 8. -/
theorem GetKeyID_populates_witness :
    ∃ keyID s1,
      (scriptedPKCS11 [4] demoLabel [7, 8] demoAttrs).GetKeyID 0
        = some (({ scriptedPKCS11 [4] demoLabel [7, 8] demoAttrs with KeyID := some keyID },
            none), s1) ∧
      (∀ i (h : i < [7, 8].length),
        keyID.get? (i : Int) = some [UInt8.ofNat ([7, 8].get ⟨i, h⟩)]) ∧
      (∀ k : Int, keyID.get? k ≠ none → 0 ≤ k ∧ k < [7, 8].length) ∧
      ([7, 8] = ([] : List Nat) → keyID = []) :=
  GetKeyID_populates (scriptedPKCS11 [4] demoLabel [7, 8] demoAttrs) 0 [7, 8] false
    (fun o => [UInt8.ofNat o]) rfl rfl
    (fun o ho s1 => by
      have ho1 : o = 7 ∨ o = 8 := by simpa using ho
      rcases ho1 with rfl | rfl
      · exact ⟨⟨rfl, rfl⟩, rfl⟩
      · exact ⟨⟨rfl, rfl⟩, rfl⟩)

/-- C10, the code at a failing input: the search finds the objects 7 and 0, and the
attribute fetch of object 0 fails, returning no attributes.  `GetKeyID` reads
`attrs[0]` of the empty result and panics: it neither returns an error nor completes. -/
theorem GetKeyID_panics_on_failed_fetch :
    ((scriptedPKCS11 [4] demoLabel [7, 0] demoAttrs).Ctx.GetAttributeValue 1 0 findTemplate 4).1
      = ([], some ⟨"CKR_OBJECT_HANDLE_INVALID"⟩) ∧
    ((scriptedPKCS11 [4] demoLabel [7, 0] demoAttrs).GetKeyID 0).isNone = true := by
  decide

end Sshlib
